import Mathlib

/-! # The limb-darkening design-matrix operator `L` (starry_process, `ops/flux/L.cc`)

A shallow embedding of the operator binding `APPLY_SPECIFIC(L)` and of the
per-instance engine slot `APPLY_SPECIFIC(LD_L)`, followed by the properties of
the binding protocol: rank validation, output allocation, lazy construction of
the engine, delegation to `computeL`, and the status returned to the host.

Conventions of the embedding.

* A raw scalar pointer (`DI0 *`, `DO0 *`) is the sequence of scalars reachable
  from it: `p k` is `p[k]`.  An `Eigen::Map` over a pointer is the fixed-size
  family of the scalars it covers.
* The helpers `get_input` and `allocate_output`, the class `LimbDark` and the
  build macros `SP__UMAX`, `SP__NLU`, `SP__N`, `TYPENUM_OUTPUT_0` are not part
  of `L.cc`; they are parameters of the embedding.
* Arguments passed by pointer (`&ndim`, `&shape`, `&success`, `output0`) are
  passed in by value and handed back in the helper's result.
* Every call of `L` reports the list of the effects it performed, in program
  order (`Result.events`); this is the instrumentation the counting and
  ordering properties are stated on.
-/

namespace sp

/-! ## Host error channel -/

/-- Exception classes of the host's error channel. -/
inductive PyExc where
  | ValueError
  | TypeError
  | MemoryError
  | RuntimeError
  deriving DecidableEq

/-- An error signalled on the host's error channel: exception class and message. -/
structure PyErr where
  exc : PyExc
  msg : String
  deriving DecidableEq

/-! ## Build configuration -/

/-- The build macros used by `L.cc`: the sizes `SP__UMAX`, `SP__NLU`, `SP__N`
and the output type number `TO0` (`TYPENUM_OUTPUT_0`). -/
structure Build where
  SP__UMAX : Nat
  SP__NLU : Nat
  SP__N : Nat
  TO0 : Int
  deriving DecidableEq

/-! ## Pointers and fixed-size views -/

/-- A raw scalar pointer, as the scalars reachable from it. -/
abbrev Ptr (S : Type) : Type := Nat → S

/-- The scalars of `Vector<T, n>`: a fixed-size column vector. -/
abbrev Vector (S : Type) (n : Nat) : Type := Fin n → S

/-- The scalars of `RowMatrix<T, r, c>`: a fixed-size row-major matrix. -/
abbrev RowMatrix (S : Type) (r c : Nat) : Type := Fin r → Fin c → S

/-- The view `Map<Vector<T, n>> u(p)`: the first `n` scalars behind `p`. -/
def Map.vector {S : Type} (n : Nat) (p : Ptr S) : Vector S n :=
  fun i => p i.val

/-- The view `Map<RowMatrix<T, r, c>> f(p)`: entry `(i, j)` is `p[i * c + j]`. -/
def Map.rowMatrix {S : Type} (r c : Nat) (p : Ptr S) : RowMatrix S r c :=
  fun i j => p (i.val * c + j.val)

/-- The memory behind `p` after the matrix `m` has been written through the
view `Map<RowMatrix<T, r, c>> f(p)`: the first `r * c` scalars hold `m` in
row-major order, the others are untouched. -/
def Map.assign {S : Type} (r c : Nat) (p : Ptr S) (m : RowMatrix S r c) : Ptr S :=
  fun k =>
    if h : k < r * c then
      m ⟨k / c, Nat.div_lt_of_lt_mul (by rw [Nat.mul_comm]; exact h)⟩
        ⟨k % c, Nat.mod_lt k (Nat.pos_of_ne_zero (by rintro rfl; simp at h))⟩
    else p k

/-! ## Host helpers -/

/-- What `get_input<DI0>(&ndim, &shape, input0, &success)` hands back: the
values behind `&ndim`, `&shape` and `&success` after the call, the returned
data pointer, and the error it signalled, if any. -/
structure GetInput (S : Type) where
  ndim : Int
  shape : List Int
  data : Ptr S
  success : Int
  raised : Option PyErr

/-- What `allocate_output<DO0>(ndim, shape, TO0, output0, &success)` hands
back: the returned data pointer, the values behind `output0` and `&success`
after the call, and the error it signalled, if any. -/
structure AllocateOutput (S A : Type) where
  data : Ptr S
  output0 : Option A
  success : Int
  raised : Option PyErr

/-- The helpers of `sp::theano` that `L` calls.  `A` is the type of the host's
array objects (`PyArrayObject`); a null array pointer is `none`.
`get_input` receives the values behind `&ndim` and `&success` and the input
array; `allocate_output` receives `ndim`, the shape array, the type number and
the values behind `output0` and `&success`. -/
structure Host (S A : Type) where
  get_input : Int → Option A → Int → GetInput S
  allocate_output : Int → List Int → Int → Option A → Int → AllocateOutput S A

/-! ## The engine -/

/-- Modelled from the spec: what a call `engine->computeL(u, f)` leaves
behind, the source of `computeL` not being in `L.cc`: the engine object, the
matrix in the output view, and whether the computation detected an internal
numerical failure (spec §4.5, §7).  The call at line 57 is an expression
statement: nothing of this is handed back to `L` except through the engine
object and the output view. -/
structure ComputeL (S E : Type) (b : Build) where
  self : E
  f : RowMatrix S b.SP__NLU b.SP__N
  failed : Bool

/-- Modelled from the spec: the class `sp::flux::LimbDark<DO0>` is not in
`L.cc`.  `new` is its default construction (`construct() -> Engine`);
`computeL` is `computeDesignMatrix`, which receives the engine object, the
input view and the output view and may detect an internal numerical failure
(spec §4.5, §6, §7).  `E` is the type of the engine object. -/
structure LimbDark (S E : Type) (b : Build) where
  new : E
  computeL : E → Vector S b.SP__UMAX → RowMatrix S b.SP__NLU b.SP__N → ComputeL S E b

/-! ## The operator -/

/-- The effects of a call of `L`, in program order. -/
inductive Event where
  /-- The call of `get_input` (line 32). -/
  | get_input
  /-- The call of `PyErr_Format` (line 34). -/
  | PyErr_Format (exc : PyExc) (msg : String)
  /-- The call of `allocate_output` (line 45) with its rank, shape and type number. -/
  | allocate_output (ndim : Int) (shape : List Int) (typenum : Int)
  /-- The read of the engine slot in the test `LD_L == NULL` (line 52). -/
  | read_LD_L
  /-- The construction `new LimbDark<DO0>()` (line 53). -/
  | new_LimbDark
  /-- The call of `computeL` (line 57). -/
  | computeL
  deriving DecidableEq

/-- What a call of `L` leaves behind: the returned status, the engine slot
`LD_L`, the value behind `output0`, the memory behind `f_out` once `computeL`
has written through the output view (`none` when the call returned earlier),
the error on the host's error channel (`none` when the call signalled none),
and the effects of the call. -/
structure Result (S A E : Type) where
  status : Int
  LD_L : Option E
  output0 : Option A
  f : Option (Ptr S)
  err : Option PyErr
  events : List Event

/-- The struct initialisation `{ APPLY_SPECIFIC(LD_L) = NULL; }` (line 12). -/
def init_LD_L {E : Type} : Option E := none

/-- The operator `int APPLY_SPECIFIC(L)(PyArrayObject *input0, PyArrayObject **output0)`
(lines 22-61), run with the engine slot `LD_L`. -/
def L {S A E : Type} (b : Build) (eng : LimbDark S E b) (h : Host S A)
    (LD_L : Option E) (input0 : Option A) (output0 : Option A) : Result S A E :=
  -- Get the inputs
  let success : Int := 0
  let ndim : Int := -1
  let gi := h.get_input ndim input0 success
  if gi.ndim ≠ 1 then
    { status := 1
      LD_L := LD_L
      output0 := output0
      f := none
      err := some ⟨PyExc.ValueError, "u must be a vector"⟩
      events := [Event.get_input, Event.PyErr_Format PyExc.ValueError "u must be a vector"] }
  else
    let u := Map.vector b.SP__UMAX gi.data
    -- Allocate the outputs
    let ndim : Int := 2
    let shape_vec : List Int := [(b.SP__NLU : Int), (b.SP__N : Int)]
    let al := h.allocate_output ndim shape_vec b.TO0 output0 gi.success
    if al.success ≠ 0 then
      { status := 1
        LD_L := LD_L
        output0 := al.output0
        f := none
        err := al.raised <|> gi.raised
        events := [Event.get_input, Event.allocate_output ndim shape_vec b.TO0] }
    else
      let f := Map.rowMatrix b.SP__NLU b.SP__N al.data
      -- Initialize the class if needed
      let slot : E × List Event :=
        match LD_L with
        | none => (eng.new, [Event.read_LD_L, Event.new_LimbDark])
        | some e => (e, [Event.read_LD_L])
      -- Compute
      let c := eng.computeL slot.1 u f
      -- We're done!
      { status := 0
        LD_L := some c.self
        output0 := al.output0
        f := some (Map.assign b.SP__NLU b.SP__N al.data c.f)
        err := al.raised <|> gi.raised
        events := [Event.get_input, Event.allocate_output ndim shape_vec b.TO0] ++
          slot.2 ++ [Event.computeL] }

/-- The result of `get_input` in a call of `L` on `input0` (line 32): `ndim`
is `-1` and `success` is `0` when the helper is called. -/
def inputOf {S A : Type} (h : Host S A) (input0 : Option A) : GetInput S :=
  h.get_input (-1) input0 0

/-- The input view `u` of a call of `L` on `input0` (line 37). -/
def inputView {S A : Type} (b : Build) (h : Host S A) (input0 : Option A) :
    Vector S b.SP__UMAX :=
  Map.vector b.SP__UMAX (inputOf h input0).data

/-- The result of `allocate_output` in a call of `L` that reaches line 45:
the request has rank 2, shape `(SP__NLU, SP__N)` and type number `TO0`. -/
def allocationOf {S A : Type} (b : Build) (h : Host S A) (input0 output0 : Option A) :
    AllocateOutput S A :=
  h.allocate_output 2 [(b.SP__NLU : Int), (b.SP__N : Int)] b.TO0 output0
    (inputOf h input0).success

/-- The output view `f` of a call of `L` before `computeL` runs (line 49). -/
def outputView {S A : Type} (b : Build) (h : Host S A) (input0 output0 : Option A) :
    RowMatrix S b.SP__NLU b.SP__N :=
  Map.rowMatrix b.SP__NLU b.SP__N (allocationOf b h input0 output0).data

/-- The engine object `computeL` is called on (lines 52-57): the one in the
slot, or a new one when the slot is null. -/
def engineOf {S E : Type} {b : Build} (eng : LimbDark S E b) (LD_L : Option E) : E :=
  match LD_L with
  | none => eng.new
  | some e => e

/-- The matrix the host reads in the output buffer after a call: the
`(SP__NLU, SP__N)` row-major view of the memory behind `f_out`. -/
def Result.matrix {S A E : Type} (b : Build) (r : Result S A E) :
    Option (RowMatrix S b.SP__NLU b.SP__N) :=
  r.f.map (Map.rowMatrix b.SP__NLU b.SP__N)

/-- Whether an effect is a request for an output buffer. -/
def Event.isAllocation : Event → Bool
  | Event.allocate_output _ _ _ => true
  | _ => false

/-- Whether an effect touches the engine: a read of the slot, a construction,
or a call of `computeL`. -/
def Event.isEngine : Event → Bool
  | Event.read_LD_L => true
  | Event.new_LimbDark => true
  | Event.computeL => true
  | _ => false

/-- The number of output buffers requested in a list of effects. -/
def allocations (es : List Event) : Nat := es.countP Event.isAllocation

/-- The number of engine constructions in a list of effects. -/
def constructions (es : List Event) : Nat := es.count Event.new_LimbDark

/-- The host `h` with the shape array reported by `get_input` replaced by `sh`. -/
def Host.withShape {S A : Type} (h : Host S A) (sh : List Int) : Host S A :=
  { h with get_input := fun ndim input0 success =>
      { h.get_input ndim input0 success with shape := sh } }

/-- The host `h` with the value `get_input` leaves behind `&success` replaced
by `fl`. -/
def Host.withSuccess {S A : Type} (h : Host S A) (fl : Int) : Host S A :=
  { h with get_input := fun ndim input0 success =>
      { h.get_input ndim input0 success with success := fl } }

/-- Modelled from the spec: `computeDesignMatrix` is a pure function of `u`
(§6) and the engine holds no per-call state (§3, §4.5); the source of
`LimbDark` is not in `L.cc`.  The matrix `computeL` writes depends on the
input view alone: not on the engine object, nor on what the output view held. -/
def LimbDark.Pure {S E : Type} {b : Build} (eng : LimbDark S E b) : Prop :=
  ∀ (e e' : E) (u : Vector S b.SP__UMAX) (f f' : RowMatrix S b.SP__NLU b.SP__N),
    (eng.computeL e u f).f = (eng.computeL e' u f').f

/-! ## Sequences of calls on one operator instance -/

/-- One call made by the host: the helpers as they behave during the call,
the input array and the value behind `output0`. -/
structure Call (S A : Type) where
  host : Host S A
  input0 : Option A
  output0 : Option A

/-- The results of consecutive calls of `L` on one operator instance, whose
engine slot is `LD_L` before the first call. -/
def run {S A E : Type} (b : Build) (eng : LimbDark S E b) :
    Option E → List (Call S A) → List (Result S A E)
  | _, [] => []
  | LD_L, c :: cs =>
    let r := L b eng c.host LD_L c.input0 c.output0
    r :: run b eng r.LD_L cs

/-- The effects of a list of results, in program order. -/
def eventsOf {S A E : Type} (rs : List (Result S A E)) : List Event :=
  (rs.map Result.events).flatten

/-! ## A concrete build, host and engine -/

/-- A host array object: rank, dimensions and flat data. -/
structure NdArray where
  nd : Int
  dims : List Int
  data : List Int
  deriving DecidableEq

/-- A build with `SP__UMAX = 2`, `SP__NLU = 2`, `SP__N = 3`. -/
def demoBuild : Build := { SP__UMAX := 2, SP__NLU := 2, SP__N := 3, TO0 := 12 }

/-- A host whose `get_input` reports the rank, dimensions and data of the
array and flags a null array, and whose `allocate_output` always provides a
zero-filled array of the requested shape. -/
def demoHost : Host Int NdArray where
  get_input := fun ndim input0 success =>
    match input0 with
    | none =>
      { ndim := ndim, shape := [], data := fun _ => 0, success := 1,
        raised := some ⟨PyExc.ValueError, "invalid input"⟩ }
    | some a =>
      { ndim := a.nd, shape := a.dims, data := fun k => a.data.getD k 0,
        success := success, raised := none }
  allocate_output := fun ndim shape _ _ success =>
    { data := fun _ => 0
      output0 := some { nd := ndim, dims := shape, data := [] }
      success := success
      raised := none }

/-- A host like `demoHost` whose `allocate_output` always fails. -/
def oomHost : Host Int NdArray where
  get_input := demoHost.get_input
  allocate_output := fun _ _ _ _ _ =>
    { data := fun _ => 0
      output0 := none
      success := 1
      raised := some ⟨PyExc.MemoryError, "could not allocate output"⟩ }

/-- An engine whose object counts its calls and whose matrix has entry
`(i, j)` equal to `u 0 + i * u 1 + j`. -/
def demoEngine : LimbDark Int Nat demoBuild where
  new := 0
  computeL := fun e u _ =>
    { self := e + 1
      f := fun i j => u ⟨0, by decide⟩ + (i.val : Int) * u ⟨1, by decide⟩ + (j.val : Int)
      failed := false }

/-- An engine that reports an internal numerical failure on every input. -/
def failingEngine : LimbDark Int Nat demoBuild where
  new := 0
  computeL := fun e _ f => { self := e, f := f, failed := true }

/-- A rank-1 array of length `SP__UMAX + 1 = 3`. -/
def vec3 : NdArray := { nd := 1, dims := [3], data := [1, 2, 3] }

/-- A second rank-1 array of length 3. -/
def vec3b : NdArray := { nd := 1, dims := [3], data := [5, 7, 11] }

/-- A rank-2 array of shape `(2, 2)`. -/
def mat22 : NdArray := { nd := 2, dims := [2, 2], data := [1, 2, 3, 4] }

/-- A rank-1 array of length 0. -/
def vec0 : NdArray := { nd := 1, dims := [0], data := [] }

/-! ## Basic facts -/

/-- Reading the row-major view of what was written through it gives back the
matrix written. -/
theorem Map.rowMatrix_assign {S : Type} (r c : Nat) (p : Ptr S) (m : RowMatrix S r c) :
    Map.rowMatrix r c (Map.assign r c p m) = m := by
  funext i j
  have hc : 0 < c := Nat.pos_of_ne_zero (by rintro rfl; exact absurd j.isLt (by simp))
  have hlt : i.val * c + j.val < r * c := by
    have h1 : (i.val + 1) * c ≤ r * c := Nat.mul_le_mul_right c i.isLt
    have h2 : i.val * c + j.val < (i.val + 1) * c := by
      rw [Nat.add_mul, Nat.one_mul]; exact Nat.add_lt_add_left j.isLt _
    exact lt_of_lt_of_le h2 h1
  have hdiv : (i.val * c + j.val) / c = i.val := by
    rw [Nat.add_comm, Nat.add_mul_div_right _ _ hc, Nat.div_eq_of_lt j.isLt, Nat.zero_add]
  have hmod : (i.val * c + j.val) % c = j.val := by
    rw [Nat.add_comm, Nat.add_mul_mod_self_right, Nat.mod_eq_of_lt j.isLt]
  simp only [Map.rowMatrix, Map.assign, hlt, dite_true]
  congr 1
  · exact Fin.ext hdiv
  · exact Fin.ext hmod

/-- The scalars behind `p` past the view are untouched by a write through it. -/
theorem Map.assign_of_le {S : Type} (r c : Nat) (p : Ptr S) (m : RowMatrix S r c)
    (k : Nat) (hk : r * c ≤ k) : Map.assign r c p m k = p k := by
  simp [Map.assign, Nat.not_lt.mpr hk]

/-! ## The three paths through `L` -/

/-- The rank-failure path (lines 33-36). -/
theorem L_of_ndim_ne {S A E : Type} (b : Build) (eng : LimbDark S E b) (h : Host S A)
    (LD_L : Option E) (input0 output0 : Option A) (hn : (inputOf h input0).ndim ≠ 1) :
    L b eng h LD_L input0 output0 =
      { status := 1, LD_L := LD_L, output0 := output0, f := none,
        err := some ⟨PyExc.ValueError, "u must be a vector"⟩,
        events := [Event.get_input,
          Event.PyErr_Format PyExc.ValueError "u must be a vector"] } := by
  unfold inputOf at hn
  simp only [L, ne_eq, hn, not_false_eq_true, ite_true]

/-- The allocation-failure path (lines 46-48). -/
theorem L_of_alloc_failed {S A E : Type} (b : Build) (eng : LimbDark S E b) (h : Host S A)
    (LD_L : Option E) (input0 output0 : Option A) (hn : (inputOf h input0).ndim = 1)
    (ha : (allocationOf b h input0 output0).success ≠ 0) :
    L b eng h LD_L input0 output0 =
      { status := 1, LD_L := LD_L, output0 := (allocationOf b h input0 output0).output0,
        f := none,
        err := (allocationOf b h input0 output0).raised <|> (inputOf h input0).raised,
        events := [Event.get_input,
          Event.allocate_output 2 [(b.SP__NLU : Int), (b.SP__N : Int)] b.TO0] } := by
  unfold allocationOf inputOf at *
  simp only [L, ne_eq, hn, not_true_eq_false, ite_false, ha, not_false_eq_true, ite_true]

/-- The path that reaches `computeL` (lines 49-60). -/
theorem L_of_alloc_ok {S A E : Type} (b : Build) (eng : LimbDark S E b) (h : Host S A)
    (LD_L : Option E) (input0 output0 : Option A) (hn : (inputOf h input0).ndim = 1)
    (ha : (allocationOf b h input0 output0).success = 0) :
    L b eng h LD_L input0 output0 =
      { status := 0,
        LD_L := some (eng.computeL (engineOf eng LD_L) (inputView b h input0)
          (outputView b h input0 output0)).self,
        output0 := (allocationOf b h input0 output0).output0,
        f := some (Map.assign b.SP__NLU b.SP__N (allocationOf b h input0 output0).data
          (eng.computeL (engineOf eng LD_L) (inputView b h input0)
            (outputView b h input0 output0)).f),
        err := (allocationOf b h input0 output0).raised <|> (inputOf h input0).raised,
        events := [Event.get_input,
          Event.allocate_output 2 [(b.SP__NLU : Int), (b.SP__N : Int)] b.TO0,
          Event.read_LD_L] ++ (if LD_L.isNone then [Event.new_LimbDark] else []) ++
          [Event.computeL] } := by
  unfold outputView inputView allocationOf inputOf at *
  cases LD_L <;>
    simp [L, hn, ha, engineOf]

/-- The status is 0 exactly on the path that reaches `computeL`. -/
theorem L_status_eq_zero_iff {S A E : Type} (b : Build) (eng : LimbDark S E b)
    (h : Host S A) (LD_L : Option E) (input0 output0 : Option A) :
    (L b eng h LD_L input0 output0).status = 0 ↔
      (inputOf h input0).ndim = 1 ∧ (allocationOf b h input0 output0).success = 0 := by
  by_cases hn : (inputOf h input0).ndim = 1
  · by_cases ha : (allocationOf b h input0 output0).success = 0
    · rw [L_of_alloc_ok b eng h LD_L input0 output0 hn ha]
      exact ⟨fun _ => ⟨hn, ha⟩, fun _ => rfl⟩
    · rw [L_of_alloc_failed b eng h LD_L input0 output0 hn ha]
      exact ⟨fun h1 => absurd h1 Int.one_ne_zero, fun h1 => absurd h1.2 ha⟩
  · rw [L_of_ndim_ne b eng h LD_L input0 output0 hn]
    exact ⟨fun h1 => absurd h1 Int.one_ne_zero, fun h1 => absurd h1.1 hn⟩

/-- A status other than 0 is the status 1. -/
theorem L_status_of_ne_zero {S A E : Type} (b : Build) (eng : LimbDark S E b)
    (h : Host S A) (LD_L : Option E) (input0 output0 : Option A)
    (hs : (L b eng h LD_L input0 output0).status ≠ 0) :
    (L b eng h LD_L input0 output0).status = 1 := by
  by_cases hn : (inputOf h input0).ndim = 1
  · by_cases ha : (allocationOf b h input0 output0).success = 0
    · exact absurd ((L_status_eq_zero_iff b eng h LD_L input0 output0).2 ⟨hn, ha⟩) hs
    · rw [L_of_alloc_failed b eng h LD_L input0 output0 hn ha]
  · rw [L_of_ndim_ne b eng h LD_L input0 output0 hn]

/-- A call that does not return 0 leaves the engine slot as it was and has
constructed no engine. -/
theorem L_failed_slot {S A E : Type} (b : Build) (eng : LimbDark S E b)
    (h : Host S A) (LD_L : Option E) (input0 output0 : Option A)
    (hs : (L b eng h LD_L input0 output0).status ≠ 0) :
    (L b eng h LD_L input0 output0).LD_L = LD_L ∧
    constructions (L b eng h LD_L input0 output0).events = 0 := by
  by_cases hn : (inputOf h input0).ndim = 1
  · by_cases ha : (allocationOf b h input0 output0).success = 0
    · exact absurd ((L_status_eq_zero_iff b eng h LD_L input0 output0).2 ⟨hn, ha⟩) hs
    · rw [L_of_alloc_failed b eng h LD_L input0 output0 hn ha]
      exact ⟨rfl, rfl⟩
  · rw [L_of_ndim_ne b eng h LD_L input0 output0 hn]
    exact ⟨rfl, rfl⟩

/-- A call that returns 0 leaves an engine in the slot; it has constructed one
exactly when the slot was null. -/
theorem L_ok_slot {S A E : Type} (b : Build) (eng : LimbDark S E b)
    (h : Host S A) (LD_L : Option E) (input0 output0 : Option A)
    (hs : (L b eng h LD_L input0 output0).status = 0) :
    (L b eng h LD_L input0 output0).LD_L.isSome = true ∧
    constructions (L b eng h LD_L input0 output0).events =
      if LD_L.isNone then 1 else 0 := by
  obtain ⟨hn, ha⟩ := (L_status_eq_zero_iff b eng h LD_L input0 output0).1 hs
  rw [L_of_alloc_ok b eng h LD_L input0 output0 hn ha]
  cases LD_L <;> exact ⟨rfl, rfl⟩

/-- The effects of consecutive calls are those of the first call followed by
those of the others. -/
theorem eventsOf_cons {S A E : Type} (r : Result S A E) (rs : List (Result S A E)) :
    eventsOf (r :: rs) = r.events ++ eventsOf rs := by
  simp [eventsOf]

/-- Constructions add up over consecutive calls. -/
theorem constructions_cons {S A E : Type} (r : Result S A E) (rs : List (Result S A E)) :
    constructions (eventsOf (r :: rs)) = constructions r.events + constructions (eventsOf rs) := by
  rw [eventsOf_cons]
  exact List.count_append _ _ _

/-- On an instance whose slot holds an engine, no call constructs one. -/
theorem run_some_constructions {S A E : Type} (b : Build) (eng : LimbDark S E b)
    (cs : List (Call S A)) :
    ∀ e : E, constructions (eventsOf (run b eng (some e) cs)) = 0 := by
  induction cs with
  | nil => intro e; rfl
  | cons c cs ih =>
    intro e
    simp only [run]
    rw [constructions_cons]
    by_cases hs : (L b eng c.host (some e) c.input0 c.output0).status = 0
    · obtain ⟨h1, h2⟩ := L_ok_slot b eng c.host (some e) c.input0 c.output0 hs
      obtain ⟨e', he'⟩ := Option.isSome_iff_exists.1 h1
      rw [h2, he', ih e']
      rfl
    · obtain ⟨h1, h2⟩ := L_failed_slot b eng c.host (some e) c.input0 c.output0 hs
      rw [h2, h1, ih e]

/-- On an instance whose slot is null, the calls construct at most one engine. -/
theorem run_none_constructions_le {S A E : Type} (b : Build) (eng : LimbDark S E b)
    (cs : List (Call S A)) :
    constructions (eventsOf (run b eng (none : Option E) cs)) ≤ 1 := by
  induction cs with
  | nil => exact Nat.zero_le 1
  | cons c cs ih =>
    simp only [run]
    rw [constructions_cons]
    by_cases hs : (L b eng c.host none c.input0 c.output0).status = 0
    · obtain ⟨h1, h2⟩ := L_ok_slot b eng c.host none c.input0 c.output0 hs
      obtain ⟨e', he'⟩ := Option.isSome_iff_exists.1 h1
      rw [h2, he', run_some_constructions b eng cs e']
      exact Nat.le_refl 1
    · obtain ⟨h1, h2⟩ := L_failed_slot b eng c.host none c.input0 c.output0 hs
      rw [h2, h1, Nat.zero_add]
      exact ih

/-- The matrix left in the output buffer by a call that returns 0. -/
theorem L_ok_matrix {S A E : Type} (b : Build) (eng : LimbDark S E b)
    (h : Host S A) (LD_L : Option E) (input0 output0 : Option A)
    (hs : (L b eng h LD_L input0 output0).status = 0) :
    (L b eng h LD_L input0 output0).matrix b =
      some (eng.computeL (engineOf eng LD_L) (inputView b h input0)
        (outputView b h input0 output0)).f := by
  obtain ⟨hn, ha⟩ := (L_status_eq_zero_iff b eng h LD_L input0 output0).1 hs
  rw [L_of_alloc_ok b eng h LD_L input0 output0 hn ha]
  simp only [Result.matrix, Option.map_some', Map.rowMatrix_assign]

/-! ## Rank validation -/

/-- C1 (as amended): for every input whose rank, as reported by `get_input`,
is not 1 (including rank 2), `L` returns the non-zero status 1 and signals on
the host's error channel a `ValueError` carrying the message
"u must be a vector"; signalling it is the last thing the call does. -/
theorem C1_rank_failure_signals_ValueError {S A E : Type} (b : Build)
    (eng : LimbDark S E b) (h : Host S A) (LD_L : Option E) (input0 output0 : Option A)
    (hn : (inputOf h input0).ndim ≠ 1) :
    (L b eng h LD_L input0 output0).status = 1 ∧
    (L b eng h LD_L input0 output0).status ≠ 0 ∧
    (L b eng h LD_L input0 output0).err =
      some ⟨PyExc.ValueError, "u must be a vector"⟩ ∧
    (L b eng h LD_L input0 output0).events.getLast? =
      some (Event.PyErr_Format PyExc.ValueError "u must be a vector") := by
  rw [L_of_ndim_ne b eng h LD_L input0 output0 hn]
  exact ⟨rfl, Int.one_ne_zero, rfl, rfl⟩

/-- C1 at a rank-2 input of the concrete host. -/
theorem C1_rank_failure_signals_ValueError_witness :
    (inputOf demoHost (some mat22)).ndim ≠ 1 ∧
    (L demoBuild demoEngine demoHost none (some mat22) none).status = 1 ∧
    (L demoBuild demoEngine demoHost none (some mat22) none).status ≠ 0 ∧
    (L demoBuild demoEngine demoHost none (some mat22) none).err =
      some ⟨PyExc.ValueError, "u must be a vector"⟩ ∧
    (L demoBuild demoEngine demoHost none (some mat22) none).events.getLast? =
      some (Event.PyErr_Format PyExc.ValueError "u must be a vector") :=
  ⟨by decide,
    C1_rank_failure_signals_ValueError demoBuild demoEngine demoHost none (some mat22) none
      (by decide)⟩

/-- C1 as stated fails: on a rank-2 input the call fails, but the error on the
host's error channel does not carry the message "input must be a vector". -/
theorem C1_message_counterexample :
    (inputOf demoHost (some mat22)).ndim = 2 ∧
    (L demoBuild demoEngine demoHost none (some mat22) none).status = 1 ∧
    ¬ ∃ e, (L demoBuild demoEngine demoHost none (some mat22) none).err = some e ∧
      e.msg = "input must be a vector" := by
  refine ⟨by decide, by decide, ?_⟩
  rintro ⟨e, he, hm⟩
  rw [L_of_ndim_ne demoBuild demoEngine demoHost none (some mat22) none (by decide)] at he
  simp only [Option.some.injEq] at he
  subst he
  revert hm
  decide

/-- C2: for every input whose rank is not 1, the failing call requests no
output buffer (the allocation count of the call is zero), leaves the value
behind `output0` exactly as it was (null if it was null), leaves the engine
slot as it was, and neither reads the slot, constructs the engine, nor calls
`computeL`; nothing is written through an output view. -/
theorem C2_rank_failure_allocates_nothing {S A E : Type} (b : Build)
    (eng : LimbDark S E b) (h : Host S A) (LD_L : Option E) (input0 output0 : Option A)
    (hn : (inputOf h input0).ndim ≠ 1) :
    (L b eng h LD_L input0 output0).status ≠ 0 ∧
    allocations (L b eng h LD_L input0 output0).events = 0 ∧
    (L b eng h LD_L input0 output0).output0 = output0 ∧
    (output0 = none → (L b eng h LD_L input0 output0).output0 = none) ∧
    (L b eng h LD_L input0 output0).LD_L = LD_L ∧
    constructions (L b eng h LD_L input0 output0).events = 0 ∧
    (∀ e ∈ (L b eng h LD_L input0 output0).events, e.isEngine = false) ∧
    (L b eng h LD_L input0 output0).f = none := by
  rw [L_of_ndim_ne b eng h LD_L input0 output0 hn]
  refine ⟨Int.one_ne_zero, rfl, rfl, fun ho => ho, rfl, rfl, ?_, rfl⟩
  intro e he
  simp only [List.mem_cons, List.mem_singleton, List.not_mem_nil, or_false] at he
  rcases he with rfl | rfl <;> rfl

/-- C2 at a rank-2 input of the concrete host, the output pointer being null. -/
theorem C2_rank_failure_allocates_nothing_witness :
    (inputOf demoHost (some mat22)).ndim ≠ 1 ∧
    allocations (L demoBuild demoEngine demoHost none (some mat22) none).events = 0 ∧
    (L demoBuild demoEngine demoHost none (some mat22) none).output0 = none ∧
    (L demoBuild demoEngine demoHost none (some mat22) none).LD_L = none :=
  have w := C2_rank_failure_allocates_nothing demoBuild demoEngine demoHost none
    (some mat22) none (by decide)
  ⟨by decide, w.2.1, w.2.2.1, w.2.2.2.2.1⟩

/-! ## Allocation and delegation -/

/-- C3: for every rank-1 input (whatever shape `get_input` reports, in
particular length `UMAX + 1`) for which the host's `allocate_output` reports
success, `L` returns the success status 0, and it requested exactly one output
buffer from the host, of rank 2 and shape `(SP__NLU, SP__N)`. -/
theorem C3_valid_input_succeeds {S A E : Type} (b : Build)
    (eng : LimbDark S E b) (h : Host S A) (LD_L : Option E) (input0 output0 : Option A)
    (hn : (inputOf h input0).ndim = 1)
    (ha : (allocationOf b h input0 output0).success = 0) :
    (L b eng h LD_L input0 output0).status = 0 ∧
    (L b eng h LD_L input0 output0).events.filter Event.isAllocation =
      [Event.allocate_output 2 [(b.SP__NLU : Int), (b.SP__N : Int)] b.TO0] ∧
    allocations (L b eng h LD_L input0 output0).events = 1 ∧
    (L b eng h LD_L input0 output0).output0 = (allocationOf b h input0 output0).output0 := by
  rw [L_of_alloc_ok b eng h LD_L input0 output0 hn ha]
  cases LD_L <;> exact ⟨rfl, rfl, rfl, rfl⟩

/-- C3 at a rank-1 input of length `SP__UMAX + 1 = 3` of the concrete host. -/
theorem C3_valid_input_succeeds_witness :
    (inputOf demoHost (some vec3)).ndim = 1 ∧
    (inputOf demoHost (some vec3)).shape = [(demoBuild.SP__UMAX : Int) + 1] ∧
    (allocationOf demoBuild demoHost (some vec3) none).success = 0 ∧
    (L demoBuild demoEngine demoHost none (some vec3) none).status = 0 ∧
    (L demoBuild demoEngine demoHost none (some vec3) none).events.filter
      Event.isAllocation = [Event.allocate_output 2 [2, 3] 12] ∧
    (L demoBuild demoEngine demoHost none (some vec3) none).output0 =
      some { nd := 2, dims := [2, 3], data := [] } :=
  have w := C3_valid_input_succeeds demoBuild demoEngine demoHost none (some vec3) none
    (by decide) (by decide)
  ⟨by decide, by decide, by decide, w.1, w.2.1, w.2.2.2⟩

/-- C4: whenever `L` returns the success status 0, `computeL` has run, as the
last effect of the call, on the engine of the slot (or the new one), on the
view of the call's input and on the view of the output buffer allocated in the
call; the memory behind `f_out` is what `computeL` wrote through the
`(SP__NLU, SP__N)` row-major view, and the matrix the host reads there is the
one `computeL` computed. -/
theorem C4_success_output_is_computeL {S A E : Type} (b : Build)
    (eng : LimbDark S E b) (h : Host S A) (LD_L : Option E) (input0 output0 : Option A)
    (hs : (L b eng h LD_L input0 output0).status = 0) :
    (L b eng h LD_L input0 output0).matrix b =
      some (eng.computeL (engineOf eng LD_L) (inputView b h input0)
        (outputView b h input0 output0)).f ∧
    (L b eng h LD_L input0 output0).f =
      some (Map.assign b.SP__NLU b.SP__N (allocationOf b h input0 output0).data
        (eng.computeL (engineOf eng LD_L) (inputView b h input0)
          (outputView b h input0 output0)).f) ∧
    (L b eng h LD_L input0 output0).output0 = (allocationOf b h input0 output0).output0 ∧
    Event.computeL ∈ (L b eng h LD_L input0 output0).events ∧
    (L b eng h LD_L input0 output0).events.getLast? = some Event.computeL := by
  obtain ⟨hn, ha⟩ := (L_status_eq_zero_iff b eng h LD_L input0 output0).1 hs
  rw [L_of_alloc_ok b eng h LD_L input0 output0 hn ha]
  refine ⟨?_, rfl, rfl, ?_, ?_⟩
  · simp only [Result.matrix, Option.map_some', Map.rowMatrix_assign]
  · simp
  · cases LD_L <;> rfl

/-- C4 at a rank-1 input of the concrete host: the matrix read by the host has
entry `(i, j)` equal to `u 0 + i * u 1 + j` for `u = (1, 2)`. -/
theorem C4_success_output_is_computeL_witness :
    (L demoBuild demoEngine demoHost none (some vec3) none).status = 0 ∧
    (L demoBuild demoEngine demoHost none (some vec3) none).matrix demoBuild =
      some (fun i j => 1 + (i.val : Int) * 2 + (j.val : Int)) ∧
    (L demoBuild demoEngine demoHost none (some vec3) none).events.getLast? =
      some Event.computeL :=
  have w := C4_success_output_is_computeL demoBuild demoEngine demoHost none (some vec3)
    none (by decide)
  ⟨by decide, w.1, w.2.2.2.2⟩

/-- C6: for every rank-1 input, the call requests the output buffer exactly
once, right after `get_input` and before any read of the engine slot, any
construction and any call of `computeL` (all of which come after the request);
and if `allocate_output` reports failure, `L` returns the non-zero status 1,
the engine slot is neither read nor changed, and the engine is neither
constructed nor invoked. -/
theorem C6_allocation_once_and_failure {S A E : Type} (b : Build)
    (eng : LimbDark S E b) (h : Host S A) (LD_L : Option E) (input0 output0 : Option A)
    (hn : (inputOf h input0).ndim = 1) :
    ((allocationOf b h input0 output0).success ≠ 0 →
      (L b eng h LD_L input0 output0).status = 1 ∧
      (L b eng h LD_L input0 output0).status ≠ 0 ∧
      (L b eng h LD_L input0 output0).LD_L = LD_L ∧
      constructions (L b eng h LD_L input0 output0).events = 0 ∧
      Event.computeL ∉ (L b eng h LD_L input0 output0).events ∧
      ∀ e ∈ (L b eng h LD_L input0 output0).events, e.isEngine = false) ∧
    allocations (L b eng h LD_L input0 output0).events = 1 ∧
    ∃ rest : List Event,
      (L b eng h LD_L input0 output0).events =
        [Event.get_input,
          Event.allocate_output 2 [(b.SP__NLU : Int), (b.SP__N : Int)] b.TO0] ++ rest ∧
      (∀ e ∈ rest, e.isEngine = true ∧ e.isAllocation = false) ∧
      ((allocationOf b h input0 output0).success = 0 → Event.read_LD_L ∈ rest) := by
  by_cases ha : (allocationOf b h input0 output0).success = 0
  · refine ⟨fun hf => absurd ha hf, ?_⟩
    rw [L_of_alloc_ok b eng h LD_L input0 output0 hn ha]
    cases LD_L
    · refine ⟨rfl, [Event.read_LD_L, Event.new_LimbDark, Event.computeL], rfl, ?_, ?_⟩
      · intro e he
        simp only [List.mem_cons, List.mem_singleton, List.not_mem_nil, or_false] at he
        rcases he with rfl | rfl | rfl <;> exact ⟨rfl, rfl⟩
      · intro _; simp
    · refine ⟨rfl, [Event.read_LD_L, Event.computeL], rfl, ?_, ?_⟩
      · intro e he
        simp only [List.mem_cons, List.mem_singleton, List.not_mem_nil, or_false] at he
        rcases he with rfl | rfl <;> exact ⟨rfl, rfl⟩
      · intro _; simp
  · rw [L_of_alloc_failed b eng h LD_L input0 output0 hn ha]
    refine ⟨fun _ => ⟨rfl, Int.one_ne_zero, rfl, rfl, ?_, ?_⟩, rfl, [], rfl, ?_, ?_⟩
    · simp
    · intro e he
      simp only [List.mem_cons, List.mem_singleton, List.not_mem_nil, or_false] at he
      rcases he with rfl | rfl <;> rfl
    · intro e he; exact absurd he (List.not_mem_nil e)
    · intro h0; exact absurd h0 ha

/-- C6 at a rank-1 input of the host whose allocator fails, the slot being null. -/
theorem C6_allocation_once_and_failure_witness :
    (inputOf oomHost (some vec3)).ndim = 1 ∧
    (allocationOf demoBuild oomHost (some vec3) none).success ≠ 0 ∧
    (L demoBuild demoEngine oomHost none (some vec3) none).status = 1 ∧
    (L demoBuild demoEngine oomHost none (some vec3) none).LD_L = none ∧
    constructions (L demoBuild demoEngine oomHost none (some vec3) none).events = 0 ∧
    allocations (L demoBuild demoEngine oomHost none (some vec3) none).events = 1 :=
  have w := C6_allocation_once_and_failure demoBuild demoEngine oomHost none (some vec3)
    none (by decide)
  have wf := w.1 (by decide)
  ⟨by decide, by decide, wf.1, wf.2.2.1, wf.2.2.2.1, w.2.1⟩

/-! ## Engine lifecycle -/

/-- C5: on an operator instance whose engine slot starts null, any sequence
of calls whatsoever, successful or failing, constructs the engine at most
once; and `K ≥ 1` consecutive calls that all return the success status 0
construct it exactly once, in the first call. -/
theorem C5_engine_constructed_once {S A E : Type} (b : Build)
    (eng : LimbDark S E b) (cs : List (Call S A)) :
    constructions (eventsOf (run b eng (init_LD_L : Option E) cs)) ≤ 1 ∧
    (cs ≠ [] → (∀ r ∈ run b eng (init_LD_L : Option E) cs, r.status = 0) →
      constructions (eventsOf (run b eng (init_LD_L : Option E) cs)) = 1 ∧
      ∃ r rs, run b eng (init_LD_L : Option E) cs = r :: rs ∧
        constructions r.events = 1 ∧ constructions (eventsOf rs) = 0) := by
  refine ⟨run_none_constructions_le b eng cs, ?_⟩
  intro hne hall
  cases cs with
  | nil => exact absurd rfl hne
  | cons c cs =>
    have hs : (L b eng c.host none c.input0 c.output0).status = 0 :=
      hall _ (by simp [run, init_LD_L])
    obtain ⟨h1, h2⟩ := L_ok_slot b eng c.host none c.input0 c.output0 hs
    obtain ⟨e', he'⟩ := Option.isSome_iff_exists.1 h1
    have h0 : constructions (eventsOf (run b eng (L b eng c.host none c.input0 c.output0).LD_L cs))
        = 0 := by
      rw [he']; exact run_some_constructions b eng cs e'
    have h3 : constructions (L b eng c.host none c.input0 c.output0).events = 1 := h2
    refine ⟨?_, L b eng c.host none c.input0 c.output0,
      run b eng (L b eng c.host none c.input0 c.output0).LD_L cs, rfl, h3, h0⟩
    simp only [run, init_LD_L]
    rw [constructions_cons, h3, h0]

/-- C5 on three consecutive successful calls of the concrete host. -/
theorem C5_engine_constructed_once_witness :
    ([Call.mk demoHost (some vec3) none, Call.mk demoHost (some vec3b) none,
        Call.mk demoHost (some vec3) none] ≠ []) ∧
    (∀ r ∈ run demoBuild demoEngine (init_LD_L : Option Nat)
        [Call.mk demoHost (some vec3) none, Call.mk demoHost (some vec3b) none,
          Call.mk demoHost (some vec3) none], r.status = 0) ∧
    constructions (eventsOf (run demoBuild demoEngine (init_LD_L : Option Nat)
      [Call.mk demoHost (some vec3) none, Call.mk demoHost (some vec3b) none,
        Call.mk demoHost (some vec3) none])) = 1 :=
  ⟨by simp, by decide,
    ((C5_engine_constructed_once demoBuild demoEngine
      [Call.mk demoHost (some vec3) none, Call.mk demoHost (some vec3b) none,
        Call.mk demoHost (some vec3) none]).2 (by simp) (by decide)).1⟩

/-- C7: a call of `L` that fails, by a rank violation or an allocation
failure, leaves the engine slot exactly as it was (null if it was null, the
same engine if it held one); a subsequent call therefore behaves exactly as
it would have had the failed call never happened, and on a rank-1 input for
which `allocate_output` reports success it returns 0 and writes the matrix
`computeL` computes on the engine the slot held before the failed call. -/
theorem C7_failed_call_keeps_engine {S A E : Type} (b : Build)
    (eng : LimbDark S E b) (h1 h2 : Host S A) (LD_L : Option E)
    (i1 o1 i2 o2 : Option A)
    (hs : (L b eng h1 LD_L i1 o1).status ≠ 0) :
    (L b eng h1 LD_L i1 o1).LD_L = LD_L ∧
    (LD_L = none → (L b eng h1 LD_L i1 o1).LD_L = none) ∧
    run b eng LD_L [Call.mk h1 i1 o1, Call.mk h2 i2 o2] =
      [L b eng h1 LD_L i1 o1, L b eng h2 LD_L i2 o2] ∧
    L b eng h2 (L b eng h1 LD_L i1 o1).LD_L i2 o2 = L b eng h2 LD_L i2 o2 ∧
    ((inputOf h2 i2).ndim = 1 → (allocationOf b h2 i2 o2).success = 0 →
      (L b eng h2 (L b eng h1 LD_L i1 o1).LD_L i2 o2).status = 0 ∧
      (L b eng h2 (L b eng h1 LD_L i1 o1).LD_L i2 o2).matrix b =
        some (eng.computeL (engineOf eng LD_L) (inputView b h2 i2)
          (outputView b h2 i2 o2)).f) := by
  have hk : (L b eng h1 LD_L i1 o1).LD_L = LD_L := (L_failed_slot b eng h1 LD_L i1 o1 hs).1
  refine ⟨hk, fun hnull => by rw [hk]; exact hnull, ?_, by rw [hk], ?_⟩
  · simp only [run, hk]
  · intro hn ha
    rw [hk, L_of_alloc_ok b eng h2 LD_L i2 o2 hn ha]
    refine ⟨rfl, ?_⟩
    simp only [Result.matrix, Option.map_some', Map.rowMatrix_assign]

/-- C7 on the concrete host: a rank-2 call on a fresh instance, then a valid call. -/
theorem C7_failed_call_keeps_engine_witness :
    (L demoBuild demoEngine demoHost none (some mat22) none).status ≠ 0 ∧
    (L demoBuild demoEngine demoHost none (some mat22) none).LD_L = none ∧
    L demoBuild demoEngine demoHost
        (L demoBuild demoEngine demoHost none (some mat22) none).LD_L (some vec3) none =
      L demoBuild demoEngine demoHost none (some vec3) none ∧
    (L demoBuild demoEngine demoHost
        (L demoBuild demoEngine demoHost none (some mat22) none).LD_L (some vec3) none).status
      = 0 :=
  have w := C7_failed_call_keeps_engine demoBuild demoEngine demoHost demoHost none
    (some mat22) none (some vec3) none (by decide)
  ⟨by decide, w.1, w.2.2.2.1, (w.2.2.2.2 (by decide) (by decide)).1⟩

/-! ## Determinism -/

/-- C8: with an engine whose `computeL` is a pure function of its input view,
the matrix a successful call of `L` leaves in the output buffer is a function
of the input view `u` alone: two successful calls whose input views agree, on
the same or on different instances, with any hosts, output pointers and engine
slots (null, so that the engine is constructed in the call, or not), leave the
same matrix; in particular, in three consecutive calls on one instance with
`u1`, then anything, then `u1` again, the third call, if it succeeds, leaves
exactly the matrix of the first. -/
theorem C8_output_depends_on_u_alone {S A E : Type} (b : Build)
    (eng : LimbDark S E b) (hp : eng.Pure) (h1 h2 : Host S A) (s1 s2 : Option E)
    (i1 o1 i2 o2 : Option A)
    (hu : inputView b h1 i1 = inputView b h2 i2)
    (hs1 : (L b eng h1 s1 i1 o1).status = 0) :
    ((L b eng h2 s2 i2 o2).status = 0 →
      (L b eng h1 s1 i1 o1).matrix b = (L b eng h2 s2 i2 o2).matrix b ∧
      ((L b eng h1 s1 i1 o1).matrix b).isSome = true) ∧
    ∀ (c : Call S A) (r1 r2 r3 : Result S A E),
      run b eng s1 [Call.mk h1 i1 o1, c, Call.mk h2 i2 o2] = [r1, r2, r3] →
      r3.status = 0 → r1.status = 0 ∧ r3.matrix b = r1.matrix b := by
  have key : ∀ (s : Option E), (L b eng h2 s i2 o2).status = 0 →
      (L b eng h1 s1 i1 o1).matrix b = (L b eng h2 s i2 o2).matrix b := by
    intro s hs2
    rw [(L_ok_matrix b eng h1 s1 i1 o1 hs1), (L_ok_matrix b eng h2 s i2 o2 hs2), hu]
    exact congrArg some (hp _ _ _ _ _)
  refine ⟨fun hs2 => ⟨key s2 hs2, ?_⟩, ?_⟩
  · rw [L_ok_matrix b eng h1 s1 i1 o1 hs1]; rfl
  · intro c r1 r2 r3 hrun h3
    simp only [run, List.cons.injEq, and_true] at hrun
    obtain ⟨e1, _, e3⟩ := hrun
    subst e1
    subst e3
    exact ⟨hs1, (key _ h3).symm⟩

/-- C8 on the concrete engine: `u1`, then `u2`, then `u1` again on one instance. -/
theorem C8_output_depends_on_u_alone_witness :
    demoEngine.Pure ∧
    (L demoBuild demoEngine demoHost none (some vec3) none).status = 0 ∧
    (L demoBuild demoEngine demoHost (some 7) (some vec3) (some mat22)).status = 0 ∧
    (L demoBuild demoEngine demoHost none (some vec3) none).matrix demoBuild =
      (L demoBuild demoEngine demoHost (some 7) (some vec3) (some mat22)).matrix demoBuild ∧
    (L demoBuild demoEngine demoHost
        (L demoBuild demoEngine demoHost
          (L demoBuild demoEngine demoHost none (some vec3) none).LD_L
          (some vec3b) none).LD_L
        (some vec3) (some mat22)).matrix demoBuild =
      (L demoBuild demoEngine demoHost none (some vec3) none).matrix demoBuild :=
  have hp : demoEngine.Pure := fun _ _ _ _ _ => rfl
  have w := C8_output_depends_on_u_alone demoBuild demoEngine hp demoHost demoHost none
    (some 7) (some vec3) none (some vec3) (some mat22) rfl (by decide)
  ⟨hp, by decide, by decide, (w.1 (by decide)).1,
    (w.2 (Call.mk demoHost (some vec3b) none) _ _ _ rfl (by decide)).2⟩

/-! ## Engine failures -/

/-- C9 (as amended): `L` has no error path after the engine call.  For every
rank-1 input for which `allocate_output` reports success, `L` returns the
status 0 and signals no error of its own (the error channel holds what the
helpers left there, and `PyErr_Format` is not called), whether or not
`computeL` reported an internal numerical failure. -/
theorem C9_engine_failure_is_not_translated {S A E : Type} (b : Build)
    (eng : LimbDark S E b) (h : Host S A) (LD_L : Option E) (input0 output0 : Option A)
    (hn : (inputOf h input0).ndim = 1)
    (ha : (allocationOf b h input0 output0).success = 0) :
    (L b eng h LD_L input0 output0).status = 0 ∧
    (L b eng h LD_L input0 output0).err =
      ((allocationOf b h input0 output0).raised <|> (inputOf h input0).raised) ∧
    (∀ exc msg, Event.PyErr_Format exc msg ∉ (L b eng h LD_L input0 output0).events) ∧
    (L b eng h LD_L input0 output0).events.getLast? = some Event.computeL := by
  rw [L_of_alloc_ok b eng h LD_L input0 output0 hn ha]
  refine ⟨rfl, rfl, ?_, ?_⟩
  · intro exc msg
    cases LD_L <;> simp
  · cases LD_L <;> rfl

/-- C9 (as amended) on the engine that always reports a failure. -/
theorem C9_engine_failure_is_not_translated_witness :
    (inputOf demoHost (some vec3)).ndim = 1 ∧
    (allocationOf demoBuild demoHost (some vec3) none).success = 0 ∧
    (L demoBuild failingEngine demoHost none (some vec3) none).status = 0 ∧
    (L demoBuild failingEngine demoHost none (some vec3) none).err = none :=
  have w := C9_engine_failure_is_not_translated demoBuild failingEngine demoHost none
    (some vec3) none (by decide) (by decide)
  ⟨by decide, by decide, w.1, w.2.1⟩

/-- C9 as stated fails: on a well-shaped input on which the engine's
computation reports an internal numerical failure, `L` returns the success
status 0 and signals no error on the host's error channel. -/
theorem C9_counterexample :
    (inputOf demoHost (some vec3)).ndim = 1 ∧
    (inputOf demoHost (some vec3)).shape = [3] ∧
    (failingEngine.computeL (engineOf failingEngine none)
      (inputView demoBuild demoHost (some vec3))
      (outputView demoBuild demoHost (some vec3) none)).failed = true ∧
    (L demoBuild failingEngine demoHost none (some vec3) none).status = 0 ∧
    (L demoBuild failingEngine demoHost none (some vec3) none).err = none ∧
    (L demoBuild failingEngine demoHost none (some vec3) none).events =
      [Event.get_input, Event.allocate_output 2 [2, 3] 12, Event.read_LD_L,
        Event.new_LimbDark, Event.computeL] := by
  exact ⟨by decide, by decide, rfl, by decide, by decide, by decide⟩

/-! ## What the validator inspects -/

/-- C10 (as amended): the validator checks the rank only.  For every input
whose reported rank is 1, whatever shape array `get_input` reports (any
length, including one different from `UMAX + 1`, and 0) and whatever value it
leaves in the status flag, the call signals no shape error and goes on to
request the output buffer; replacing the reported shape changes nothing in
the call, and replacing the reported flag changes nothing up to and including
the request.  The flag is handed on to `allocate_output` and tested after it
(line 46): when it is 0 after `allocate_output` the call runs `computeL` over
the fixed-size view of the first `SP__UMAX` scalars behind the input pointer
and returns 0; when it is not, the call returns 1 without running the engine. -/
theorem C10_validator_checks_rank_only {S A E : Type} (b : Build)
    (eng : LimbDark S E b) (h : Host S A) (LD_L : Option E) (input0 output0 : Option A)
    (hn : (inputOf h input0).ndim = 1) :
    (∀ exc msg, Event.PyErr_Format exc msg ∉ (L b eng h LD_L input0 output0).events) ∧
    (L b eng h LD_L input0 output0).events.take 2 =
      [Event.get_input,
        Event.allocate_output 2 [(b.SP__NLU : Int), (b.SP__N : Int)] b.TO0] ∧
    (∀ sh : List Int,
      L b eng (h.withShape sh) LD_L input0 output0 = L b eng h LD_L input0 output0) ∧
    (∀ fl : Int,
      (L b eng (h.withSuccess fl) LD_L input0 output0).events.take 2 =
        (L b eng h LD_L input0 output0).events.take 2) ∧
    ((allocationOf b h input0 output0).success = 0 →
      (L b eng h LD_L input0 output0).status = 0 ∧
      Event.computeL ∈ (L b eng h LD_L input0 output0).events ∧
      (L b eng h LD_L input0 output0).matrix b =
        some (eng.computeL (engineOf eng LD_L)
          (Map.vector b.SP__UMAX (inputOf h input0).data)
          (outputView b h input0 output0)).f) ∧
    ((allocationOf b h input0 output0).success ≠ 0 →
      (L b eng h LD_L input0 output0).status = 1 ∧
      Event.computeL ∉ (L b eng h LD_L input0 output0).events) := by
  have take2 : ∀ h' : Host S A, (inputOf h' input0).ndim = 1 →
      (L b eng h' LD_L input0 output0).events.take 2 =
        [Event.get_input,
          Event.allocate_output 2 [(b.SP__NLU : Int), (b.SP__N : Int)] b.TO0] := by
    intro h' hn'
    by_cases ha : (allocationOf b h' input0 output0).success = 0
    · rw [L_of_alloc_ok b eng h' LD_L input0 output0 hn' ha]; rfl
    · rw [L_of_alloc_failed b eng h' LD_L input0 output0 hn' ha]; rfl
  refine ⟨?_, take2 h hn, ?_, ?_, ?_, ?_⟩
  · intro exc msg
    by_cases ha : (allocationOf b h input0 output0).success = 0
    · rw [L_of_alloc_ok b eng h LD_L input0 output0 hn ha]
      cases LD_L <;> simp
    · rw [L_of_alloc_failed b eng h LD_L input0 output0 hn ha]
      simp
  · intro sh
    rfl
  · intro fl
    rw [take2 h hn, take2 (h.withSuccess fl) hn]
  · intro ha
    have hs := (L_status_eq_zero_iff b eng h LD_L input0 output0).2 ⟨hn, ha⟩
    refine ⟨hs, ?_, L_ok_matrix b eng h LD_L input0 output0 hs⟩
    rw [L_of_alloc_ok b eng h LD_L input0 output0 hn ha]
    simp
  · intro ha
    rw [L_of_alloc_failed b eng h LD_L input0 output0 hn ha]
    exact ⟨rfl, by simp⟩

/-- C10 (as amended) at a rank-1 input of length 0 of the concrete host. -/
theorem C10_validator_checks_rank_only_witness :
    (inputOf demoHost (some vec0)).ndim = 1 ∧
    (inputOf demoHost (some vec0)).shape = [0] ∧
    (L demoBuild demoEngine demoHost none (some vec0) none).status = 0 ∧
    (L demoBuild demoEngine demoHost none (some vec0) none).events.take 2 =
      [Event.get_input, Event.allocate_output 2 [2, 3] 12] ∧
    (L demoBuild demoEngine (demoHost.withSuccess 1) none (some vec0) none).events.take 2 =
      [Event.get_input, Event.allocate_output 2 [2, 3] 12] :=
  have w := C10_validator_checks_rank_only demoBuild demoEngine demoHost none (some vec0)
    none (by decide)
  ⟨by decide, by decide, (w.2.2.2.2.1 (by decide)).1, w.2.1, (w.2.2.2.1 1).trans w.2.1⟩

/-- C10 as stated fails: on a rank-1 input of length `UMAX + 1` for which
`get_input` leaves the status flag at 1, with an `allocate_output` that
provides the buffer and leaves the flag as it found it, validation passes and
the output is requested, but the call returns 1 at line 47 and the engine is
neither constructed nor run. -/
theorem C10_flag_counterexample :
    (inputOf (demoHost.withSuccess 1) (some vec3)).ndim = 1 ∧
    (inputOf (demoHost.withSuccess 1) (some vec3)).success = 1 ∧
    (L demoBuild demoEngine (demoHost.withSuccess 1) none (some vec3) none).events =
      [Event.get_input, Event.allocate_output 2 [2, 3] 12] ∧
    (L demoBuild demoEngine (demoHost.withSuccess 1) none (some vec3) none).output0 =
      some { nd := 2, dims := [2, 3], data := [] } ∧
    (L demoBuild demoEngine (demoHost.withSuccess 1) none (some vec3) none).status = 1 ∧
    Event.computeL ∉
      (L demoBuild demoEngine (demoHost.withSuccess 1) none (some vec3) none).events ∧
    (L demoBuild demoEngine (demoHost.withSuccess 1) none (some vec3) none).LD_L = none := by
  exact ⟨by decide, by decide, by decide, by decide, by decide, by decide, by decide⟩

end sp
